import Mathlib

/-!
Shallow embedding of the temporal signal-processing core of the AEyePro
health-monitoring repository, together with theorems settling the stated
properties of its specification.

Embedded components (all numeric values are modelled as rationals; the
Python source uses floats, and every comparison and arithmetic operation
relevant to the properties below is exact on the inputs considered):

- the blink state machine (src/AEyePro/vision/blink_detector.py);
- the drowsiness fusion engine (src/vision/drowsiness_detector.py):
  the hysteresis update and the gaze-off tracker;
- the posture classifier (src/vision/posture_analyzer.py): angle
  normalization, distance estimation and smoothing, classification.

Python dictionaries that serve as result objects are modelled as
association lists of string keys and tagged values, so that presence and
absence of keys is part of the model.
-/

namespace AEyePro

/-- Append a value to a bounded FIFO buffer of capacity `n`, evicting the
oldest elements when the capacity is exceeded.  Models
`collections.deque(maxlen := n).append`. -/
def pushCap (n : ℕ) (buf : List ℚ) (x : ℚ) : List ℚ :=
  let b := buf ++ [x]
  if b.length ≤ n then b else b.drop (b.length - n)

/-- Insert a rational into an ascending-sorted list, keeping it sorted. -/
def insertAsc (x : ℚ) : List ℚ → List ℚ
  | [] => [x]
  | y :: ys => if x ≤ y then x :: y :: ys else y :: insertAsc x ys

/-- Ascending insertion sort; yields the same list of values as Python's
`sorted` on rational inputs. -/
def sortAsc : List ℚ → List ℚ
  | [] => []
  | x :: xs => insertAsc x (sortAsc xs)

/-- Median selection as performed by the blink detector:
`sorted(buffer)[len(buffer) // 2]`.  Returns `0` on an empty list (the
source only evaluates it on buffers of at least three samples). -/
def medianQ (buf : List ℚ) : ℚ :=
  (sortAsc buf).getD (buf.length / 2) 0

/-- Arithmetic mean of a list, `sum / len`; `0` on the empty list (the
source guards every call with a non-emptiness test). -/
def meanQ (l : List ℚ) : ℚ :=
  l.sum / (l.length : ℚ)

/-- Tagged value stored in a result dictionary: a number, a boolean, a
string, or Python's `None`. -/
inductive Val where
  | num  (q : ℚ)
  | bool (b : Bool)
  | str  (s : String)
  | none
deriving DecidableEq

/-- A Python result dictionary, modelled as an association list so that
key presence is observable. -/
abbrev Info := List (String × Val)

/-- Write one key of a dictionary: replace the value in place if the key
is present, append the pair otherwise (one key of `dict.update`). -/
def setKey (k : String) (v : Val) : Info → Info
  | [] => [(k, v)]
  | (k₀, v₀) :: rest => if k₀ = k then (k, v) :: rest else (k₀, v₀) :: setKey k v rest

/-- Python's `dict.update`: fold `setKey` over the new pairs. -/
def dictUpdate (d : Info) (upds : List (String × Val)) : Info :=
  upds.foldl (fun d kv => setKey kv.1 kv.2 d) d

/-- Key membership in a result dictionary. -/
def hasKey (d : Info) (k : String) : Bool :=
  d.any (fun kv => kv.1 = k)

/-- Value lookup in a result dictionary. -/
def lookupKey : Info → String → Option Val
  | [], _ => Option.none
  | (k₀, v₀) :: rest, k => if k₀ = k then some v₀ else lookupKey rest k

/-! ## Blink state machine (src/AEyePro/vision/blink_detector.py) -/

/-- Configuration of the blink detector, read from `settings.json` in
`BlinkDetector.__init__`. -/
structure BlinkCfg where
  consecutive_frames : ℕ
  ear_th : ℚ
  max_blink_dur : ℚ
  min_blink_gap : ℚ
  max_head_yaw : ℚ
  max_head_pitch : ℚ

/-- Runtime state of `BlinkDetector` (the mutable attributes set in
`__init__`). -/
structure BlinkState where
  blink_count : ℕ
  closed_frames : ℕ
  blink_start : ℚ
  last_blink_ts : ℚ
  blink_end_time : ℚ
  blink_durations : List ℚ
  blink_intervals : List ℚ
  session_start : ℚ
  yaw_queue : List ℚ
  counting_active : Bool
  current_ear : Option ℚ
  ear_buffer : List ℚ

/-- Initial blink-detector state created by `__init__` at session start
time `t₀`. -/
def initBlinkState (t₀ : ℚ) : BlinkState :=
  { blink_count := 0, closed_frames := 0, blink_start := 0, last_blink_ts := 0,
    blink_end_time := 0, blink_durations := [], blink_intervals := [],
    session_start := t₀, yaw_queue := [], counting_active := false,
    current_ear := Option.none, ear_buffer := [] }

/-- `BlinkDetector._reset_state`: clear the counting flag, the closed-frame
counter, and both rolling buffers. -/
def resetState (s : BlinkState) : BlinkState :=
  { s with counting_active := false, closed_frames := 0,
           ear_buffer := [], yaw_queue := [] }

/-- Head-pitch guard of `_detect`: `pitch is not None and abs(pitch) >
max_head_pitch`. -/
def pitchExceeded (cfg : BlinkCfg) : Option ℚ → Bool
  | Option.none => false
  | some p => decide (cfg.max_head_pitch < |p|)

/-- Head-yaw guard of `_detect`: when yaw is present, push it onto the
moving-average queue (capacity 30) and test whether the absolute average
exceeds the limit.  Returns the updated queue and the guard outcome. -/
def yawStep (cfg : BlinkCfg) (q : List ℚ) : Option ℚ → List ℚ × Bool
  | Option.none => (q, false)
  | some v =>
    let q2 := pushCap 30 q v
    (q2, decide (cfg.max_head_yaw < |q2.sum / (q2.length : ℚ)|))

/-- Result dictionary built at the end of `_detect` (step 4), from the
post-transition state. -/
def mkInfo (s : BlinkState) (now filtered earOrig : ℚ) (eyeClosed : Bool)
    (reason : Val) : Info :=
  [("reason", reason),
   ("ear_filtered", Val.num filtered),
   ("ear_original", Val.num earOrig),
   ("eye_closed", Val.bool eyeClosed),
   ("closed_frames", Val.num (if s.counting_active then (s.closed_frames : ℚ) else 0)),
   ("blink_duration", Val.num (if s.counting_active then now - s.blink_start else 0)),
   ("time_since_last_blink",
     if 0 < s.last_blink_ts then Val.num (now - s.last_blink_ts) else Val.none)]

/-- State transition of `_detect` (step 3, the blink-detection logic) for
a frame that passed input validation and the head-motion guards, with the
median-filtered EAR `filtered` and raw EAR `earOrig`.  `now` is the value
of `time.time()` taken at the start of the call.  In the valid-blink
branch the source assigns `_last_blink_ts = now` before testing
`_last_blink_ts > 0`, so the interval history is appended whenever
`now > 0`. -/
def detectCore (cfg : BlinkCfg) (s : BlinkState) (now filtered earOrig : ℚ) :
    BlinkState × Bool × Info :=
  if filtered < cfg.ear_th then
    if s.counting_active = false then
      let s1 := { s with counting_active := true, blink_start := now, closed_frames := 1 }
      (s1, false, mkInfo s1 now filtered earOrig true Val.none)
    else
      let s1 := { s with closed_frames := s.closed_frames + 1 }
      if cfg.max_blink_dur < now - s1.blink_start then
        (resetState s1, false, [("reason", Val.str "blink_too_long")])
      else
        (s1, false, mkInfo s1 now filtered earOrig true Val.none)
  else
    if s.counting_active then
      let dur := now - s.blink_start
      if cfg.consecutive_frames ≤ s.closed_frames ∧ cfg.min_blink_gap ≤ dur then
        let tsl := now - s.last_blink_ts
        if cfg.min_blink_gap ≤ tsl then
          let s1 := { s with
            blink_count := s.blink_count + 1,
            last_blink_ts := now,
            blink_end_time := now,
            blink_durations := pushCap 100 s.blink_durations dur,
            blink_intervals :=
              if 0 < now then pushCap 100 s.blink_intervals tsl else s.blink_intervals,
            counting_active := false, closed_frames := 0 }
          (s1, true, mkInfo s1 now filtered earOrig false (Val.str "valid_blink"))
        else
          let s1 := { s with counting_active := false, closed_frames := 0 }
          (s1, false, mkInfo s1 now filtered earOrig false (Val.str "too_soon_after_previous"))
      else
        let s1 := { s with counting_active := false, closed_frames := 0 }
        (s1, false, mkInfo s1 now filtered earOrig false Val.none)
    else
      (s, false, mkInfo s now filtered earOrig false Val.none)

/-- `BlinkDetector._detect`: input validation (absent EAR, de-bounce
buffer of fewer than three samples), median filtering, head-motion
guards, then the state transition of `detectCore`.  The `contrast`
argument is accepted and unused, as in the source. -/
def detect (cfg : BlinkCfg) (s : BlinkState) (now : ℚ)
    (ear _contrast pitch yaw : Option ℚ) : BlinkState × Bool × Info :=
  match ear with
  | Option.none => (resetState s, false, [("reason", Val.str "no_ear_data")])
  | some e =>
    let buf := pushCap 5 s.ear_buffer e
    let s1 := { s with ear_buffer := buf }
    if buf.length < 3 then
      (s1, false, [("reason", Val.str "insufficient_data")])
    else
      let filtered := medianQ buf
      let s2 := { s1 with current_ear := some filtered }
      if pitchExceeded cfg pitch then
        (resetState s2, false, [("reason", Val.str "head_pitch_exceeded")])
      else
        let yr := yawStep cfg s2.yaw_queue yaw
        let s3 := { s2 with yaw_queue := yr.1 }
        if yr.2 then
          (resetState s3, false, [("reason", Val.str "head_yaw_exceeded")])
        else
          detectCore cfg s3 now filtered e

/-- `BlinkDetector._calculate_blink_rate`: blinks per minute, `0` before a
full minute of session time has elapsed. -/
def blinkRate (s : BlinkState) (now : ℚ) : ℚ :=
  if now - s.session_start < 60 then 0
  else (s.blink_count : ℚ) / (now - s.session_start) * 60

/-- `BlinkDetector._calculate_avg_blink_duration`: mean of the bounded
duration history, `0` when empty. -/
def avgBlinkDuration (s : BlinkState) : ℚ :=
  if s.blink_durations = [] then 0 else meanQ s.blink_durations

/-- `BlinkDetector._calculate_avg_blink_interval`: mean of the bounded
interval history, `0` when empty. -/
def avgBlinkInterval (s : BlinkState) : ℚ :=
  if s.blink_intervals = [] then 0 else meanQ s.blink_intervals

/-- Encoding of an optional number as a dictionary value. -/
def optNum : Option ℚ → Val
  | Option.none => Val.none
  | some q => Val.num q

/-- `BlinkDetector.update`: run `_detect` on the latest sample, then merge
the supplementary keys into the result dictionary via `dict.update`.  The
frame object is opaque to the logic and is modelled by an arbitrary
dictionary value.  The source calls `time.time()` again inside
`_calculate_blink_rate`; both reads are modelled by the same `now`. -/
def update (cfg : BlinkCfg) (s : BlinkState) (now : ℚ) (frame : Val)
    (ear contrast pitch yaw : Option ℚ) : BlinkState × Info :=
  let r := detect cfg s now ear contrast pitch yaw
  let s1 := r.1
  (s1, dictUpdate r.2.2
    [("frame", frame),
     ("blink_detected", Val.bool r.2.1),
     ("total_blinks", Val.num (s1.blink_count : ℚ)),
     ("ear", optNum ear),
     ("blink_rate_per_minute", Val.num (blinkRate s1 now)),
     ("avg_blink_duration", Val.num (avgBlinkDuration s1)),
     ("avg_blink_interval", Val.num (avgBlinkInterval s1))])

/-- `BlinkDetector.reset_statistics` at wall-clock time `now`. -/
def resetStatistics (s : BlinkState) (now : ℚ) : BlinkState :=
  { s with blink_count := 0, session_start := now, last_blink_ts := 0,
           blink_durations := [], blink_intervals := [] }

/-- Fold `_detect` over a list of `(timestamp, EAR)` samples with head
pose and contrast absent, returning the final state. -/
def runDetect (cfg : BlinkCfg) (s : BlinkState) (calls : List (ℚ × Option ℚ)) :
    BlinkState :=
  calls.foldl
    (fun s c => (detect cfg s c.1 c.2 Option.none Option.none Option.none).1) s

/-- The ten field names of the BlinkResult output contract, as the keys of
the `update` result dictionary. -/
def blinkResultKeys : List String :=
  ["reason", "blink_detected", "ear_filtered", "closed_frames",
   "blink_duration", "time_since_last_blink", "total_blinks",
   "blink_rate_per_minute", "avg_blink_duration", "avg_blink_interval"]

/-- Whether a result dictionary carries every BlinkResult field. -/
def allBlinkKeys (d : Info) : Bool :=
  blinkResultKeys.all (hasKey d)

/-! ## Fatigue-pattern statistics (`_calculate_rhythm_irregularity`)

The source computes `min(1.0, statistics.stdev(xs) / statistics.mean(xs))`,
guarded by the sample-count and zero-mean checks.  The square root of the
sample variance is irrational in general, so the function is embedded at
the level of its square: for a list with positive mean (inter-blink
intervals are positive), `min(1, x)² = min(1, x²)` for `x ≥ 0`, hence
`rhythmIrregularitySq` is exactly the square of the value the source
computes, and two squared values are equal or ordered exactly when the
original non-negative values are. -/

/-- Sum of squared deviations from the mean. -/
def sumSqDev (l : List ℚ) : ℚ :=
  (l.map (fun x => (x - meanQ l) ^ 2)).sum

/-- Population variance, `sumSqDev / n`. -/
def popVarQ (l : List ℚ) : ℚ :=
  sumSqDev l / (l.length : ℚ)

/-- Sample variance with Bessel's correction, `sumSqDev / (n - 1)`; this is
the square of Python's `statistics.stdev`. -/
def sampleVarQ (l : List ℚ) : ℚ :=
  sumSqDev l / ((l.length : ℚ) - 1)

/-- Square of `BlinkDetector._calculate_rhythm_irregularity`: `0` for
fewer than five samples or a zero mean, otherwise
`min(1, stdev/mean)²  =  min(1, sampleVar/mean²)`. -/
def rhythmIrregularitySq (l : List ℚ) : ℚ :=
  if l.length < 5 then 0
  else if meanQ l = 0 then 0
  else min 1 (sampleVarQ l / (meanQ l) ^ 2)

/-- Modelled from the spec: the square of the rhythm irregularity as the
specification describes it, namely the coefficient of variation computed
with the population standard deviation (and the same small-sample and
zero-mean guards).  Defined for comparison against the source-derived
`rhythmIrregularitySq`. -/
def rhythmIrregularitySpecSq (l : List ℚ) : ℚ :=
  if l.length < 5 then 0
  else if meanQ l = 0 then 0
  else popVarQ l / (meanQ l) ^ 2

/-! ## Drowsiness fusion engine (src/vision/drowsiness_detector.py) -/

/-- Fused drowsy flag with its hysteresis timestamp (the attributes
`_drowsy` and `_drowsy_end_time` of `DrowsinessDetector`). -/
structure FusionState where
  drowsy : Bool
  drowsy_end_time : Option ℚ
deriving DecidableEq

/-- `DrowsinessDetector.DROWSY_RELEASE_SEC`, the hardcoded 0.5 s release
window. -/
def DROWSY_RELEASE_SEC : ℚ := 1 / 2

/-- `DrowsinessDetector._update_drowsy_state` at wall-clock `now` with
`signals` active component signals.  The Python release test is
`if self._drowsy_end_time and now - self._drowsy_end_time >= 0.5`, where a
stored timestamp of `0.0` is falsy; the embedding keeps that truthiness
test as the conjunct `t ≠ 0`. -/
def updateDrowsyState (now : ℚ) (signals : ℕ) (s : FusionState) : FusionState :=
  if 1 ≤ signals then
    { drowsy := true, drowsy_end_time := Option.none }
  else
    let s1 :=
      if s.drowsy = true ∧ s.drowsy_end_time = Option.none then
        { s with drowsy_end_time := some now }
      else s
    match s1.drowsy_end_time with
    | Option.none => s1
    | some t =>
      if t ≠ 0 ∧ DROWSY_RELEASE_SEC ≤ now - t then
        { drowsy := false, drowsy_end_time := Option.none }
      else s1

/-- Fold `_update_drowsy_state` over a list of `(timestamp, signal count)`
calls. -/
def runDrowsy (s : FusionState) (calls : List (ℚ × ℕ)) : FusionState :=
  calls.foldl (fun s c => updateDrowsyState c.1 c.2 s) s

/-- Configuration of the gaze-off tracker: the minimum reasonable distance
and the hardcoded constants `MAX_MISSING_DIST_SEC = 1.0` and
`gaze_off_threshold_sec = 2.0`. -/
structure GazeCfg where
  min_gaze_distance_cm : ℚ
  max_missing_dist_sec : ℚ
  gaze_off_threshold_sec : ℚ

/-- `DrowsinessDetector._analyze_gaze_off`.  The input is the posture
dictionary, abstracted to its only consulted entry: `Option.none` models an
absent `posture_data`, `some d` models a present dictionary whose
`eye_distance_cm` entry is `d` (itself optional).  Returns the new
`_gaze_off_start` timestamp and the gaze-off verdict for the frame. -/
def analyzeGazeOff (cfg : GazeCfg) (gazeOffStart : Option ℚ) (now : ℚ)
    (posture : Option (Option ℚ)) : Option ℚ × Bool :=
  match posture with
  | Option.none => (gazeOffStart, false)
  | some dist =>
    match dist with
    | Option.none =>
      match gazeOffStart with
      | some t =>
        if cfg.max_missing_dist_sec < now - t then (Option.none, false)
        else (some t, false)
      | Option.none => (Option.none, false)
    | some d =>
      if d < cfg.min_gaze_distance_cm then
        let start := gazeOffStart.getD now
        (some start, decide (cfg.gaze_off_threshold_sec ≤ now - start))
      else (Option.none, false)

/-- Fold `_analyze_gaze_off` over a list of `(timestamp, posture input)`
calls, returning the final `_gaze_off_start`. -/
def runGazeOff (cfg : GazeCfg) (g : Option ℚ)
    (calls : List (ℚ × Option (Option ℚ))) : Option ℚ :=
  calls.foldl (fun g c => (analyzeGazeOff cfg g c.1 c.2).1) g

/-! ## Posture classifier (src/vision/posture_analyzer.py)

The landmark geometry (vector norms, `acos`-based angles) is produced in
the source by `np.linalg.norm` and `PostureAnalyzer._angle` from
MediaPipe landmarks; `analyzePosture` embeds `analyze` from line 137
onward, taking the three raw angles and the inter-eye pixel span as its
per-frame scalar inputs. -/

/-- Configuration of the posture analyzer read in `__init__`. -/
structure PostureCfg where
  focal : ℚ
  avg_eye_cm : ℚ
  min_eye_px : ℚ
  min_dist_cm : ℚ
  max_dist_cm : ℚ
  max_head_yaw : ℚ
  max_head_pitch : ℚ
  max_shoulder_tilt : ℚ

/-- Rolling smoothing buffers of `PostureAnalyzer` (capacity 5 for the
angles, 3 for the distance). -/
structure PostureState where
  yaw_filter : List ℚ
  pitch_filter : List ℚ
  shoulder_filter : List ℚ
  dist_filter : List ℚ

/-- Result dictionary of one `analyze` call on a frame with a detected
pose (the `_latest` assignment): smoothed and normalized angles, the
smoothed optional distance, and the status string. -/
structure PostureResult where
  head_side_angle : ℚ
  head_updown_angle : ℚ
  shoulder_tilt : ℚ
  eye_distance_cm : Option ℚ
  status : String

/-- `np.clip(x, lo, hi)`: clamp below by `lo`, then above by `hi`. -/
def clip (x lo hi : ℚ) : ℚ :=
  min (max x lo) hi

/-- `PostureAnalyzer._normalize_angle_to_zero`: angles within
`[-90, 90]` pass through, angles above `90` are shifted by `-180`, angles
below `-90` by `+180`. -/
def normalizeAngleToZero (angle : ℚ) : ℚ :=
  if -90 ≤ angle ∧ angle ≤ 90 then angle
  else if 90 < angle then angle - 180
  else angle + 180

/-- `PostureAnalyzer._classify_normalized` on the smoothed, normalized
angles and the optional smoothed distance. -/
def classifyNormalized (cfg : PostureCfg) (yaw pitch shoulder : ℚ)
    (dist : Option ℚ) : String :=
  if cfg.max_head_yaw < |yaw| then "poor"
  else if cfg.max_head_pitch < |pitch| then "poor"
  else if cfg.max_shoulder_tilt < |shoulder| then "poor"
  else
    match dist with
    | some d =>
      if d < cfg.min_dist_cm ∨ cfg.max_dist_cm < d then "poor" else "good"
    | Option.none => "good"

/-- `PostureAnalyzer.analyze` from the distance estimate onward (line 137):
raw distance estimate gated on the minimum pixel span, buffer pushes,
moving averages, angle normalization, and classification. -/
def analyzePosture (cfg : PostureCfg) (s : PostureState)
    (yaw pitch shoulder eye_px : ℚ) : PostureState × PostureResult :=
  let distance_cm : Option ℚ :=
    if cfg.min_eye_px ≤ eye_px then
      some (clip (cfg.avg_eye_cm * cfg.focal / eye_px) cfg.min_dist_cm cfg.max_dist_cm)
    else Option.none
  let s1 : PostureState :=
    { yaw_filter := pushCap 5 s.yaw_filter yaw,
      pitch_filter := pushCap 5 s.pitch_filter pitch,
      shoulder_filter := pushCap 5 s.shoulder_filter shoulder,
      dist_filter :=
        match distance_cm with
        | some d => pushCap 3 s.dist_filter d
        | Option.none => s.dist_filter }
  let yaw_f := meanQ s1.yaw_filter
  let pitch_f := meanQ s1.pitch_filter
  let shoulder_f := meanQ s1.shoulder_filter
  let dist_f : Option ℚ :=
    if s1.dist_filter = [] then Option.none else some (meanQ s1.dist_filter)
  let yawN := normalizeAngleToZero yaw_f
  let pitchN := normalizeAngleToZero pitch_f
  let shoulderN := normalizeAngleToZero shoulder_f
  (s1,
   { head_side_angle := yawN, head_updown_angle := pitchN,
     shoulder_tilt := shoulderN, eye_distance_cm := dist_f,
     status := classifyNormalized cfg yawN pitchN shoulderN dist_f })

/-- Fold `analyzePosture` over a list of per-frame scalar inputs
`(yaw, pitch, shoulder, eye_px)`, returning the final state and the last
result. -/
def runPosture (cfg : PostureCfg) (s : PostureState)
    (calls : List (ℚ × ℚ × ℚ × ℚ)) : PostureState :=
  calls.foldl
    (fun s c => (analyzePosture cfg s c.1 c.2.1 c.2.2.1 c.2.2.2).1) s

/-! ## Concrete instances used by the scenario theorems below -/

/-- Configuration of the specified blink scenario: `consecutive_frames = 3`,
`blink_threshold = 0.2`, `max_blink_duration = 0.5`,
`min_blink_interval = 0.1`, generous head-motion limits. -/
def cfgScenario : BlinkCfg :=
  { consecutive_frames := 3, ear_th := 1/5, max_blink_dur := 1/2,
    min_blink_gap := 1/10, max_head_yaw := 45, max_head_pitch := 30 }

/-- The specified EAR sequence `[0.30, 0.30, 0.15, 0.15, 0.15, 0.15, 0.30]`
with timestamps `k/30` (30 fps). -/
def traceScenario : List (ℚ × Option ℚ) :=
  [(0, some (3/10)), (1/30, some (3/10)), (2/30, some (3/20)), (3/30, some (3/20)),
   (4/30, some (3/20)), (5/30, some (3/20)), (6/30, some (3/10))]

/-- The scenario sequence extended by two more open-eye frames
(EAR `0.30`) at the same 30 fps cadence. -/
def traceScenarioExt : List (ℚ × Option ℚ) :=
  traceScenario ++ [(7/30, some (3/10)), (8/30, some (3/10))]

/-- Blink configuration with `consecutive_frames = 2` used by the
long-run counterexample. -/
def cfgSlow : BlinkCfg :=
  { consecutive_frames := 2, ear_th := 1/5, max_blink_dur := 1/2,
    min_blink_gap := 1/10, max_head_yaw := 45, max_head_pitch := 30 }

/-- A closed-eye run fed at 0.3 s call intervals: the filtered EAR stays
below threshold from the third call on, and the run lasts well past the
0.5 s maximum blink duration before the final open frame. -/
def traceSlow : List (ℚ × Option ℚ) :=
  [(0, some (1/10)), (3/10, some (1/10)), (6/10, some (1/10)), (9/10, some (1/10)),
   (12/10, some (1/10)), (15/10, some (3/10))]

/-- Gaze-off configuration: minimum reasonable distance 50 cm, with the
hardcoded 1 s missing-data limit and 2 s gaze-off threshold. -/
def cfgGaze : GazeCfg :=
  { min_gaze_distance_cm := 50, max_missing_dist_sec := 1,
    gaze_off_threshold_sec := 2 }

/-- Posture configuration: focal length 600 px, inter-eye reference
6.3 cm, minimum eye-pixel span 10, distance range [30, 100] cm. -/
def cfgPosture : PostureCfg :=
  { focal := 600, avg_eye_cm := 63/10, min_eye_px := 10, min_dist_cm := 30,
    max_dist_cm := 100, max_head_yaw := 45, max_head_pitch := 30,
    max_shoulder_tilt := 20 }

/-- Posture analyzer state with all smoothing buffers empty. -/
def postureState0 : PostureState :=
  { yaw_filter := [], pitch_filter := [], shoulder_filter := [], dist_filter := [] }

/-- A blink-detector state in the middle of a counted closed-eye run:
three closed frames since `t = 1`, no blink registered yet, de-bounce
buffer primed with two open-eye samples. -/
def blinkStateMid : BlinkState :=
  { (initBlinkState 0) with
    counting_active := true, closed_frames := 3,
    blink_start := 1, ear_buffer := [3/10, 3/10] }

/-! ## Theorems -/

attribute [local semireducible] Rat.add Rat.sub Rat.mul Rat.inv

/-- C6, counterexample.  Feeding the specified 7-frame EAR sequence
`[0.30, 0.30, 0.15, 0.15, 0.15, 0.15, 0.30]` at 30 fps with
`consecutive_frames = 3`, `blink_threshold = 0.2`,
`min_blink_interval = 0.1 s` registers no blink at all: the median
de-bounce filter delays both edges, so the closed-eye run only starts at
the fifth frame and is still being counted after the last frame.  The
claimed single valid blink of duration 4/30 s does not occur. -/
theorem blink_scenario_seven_frames_no_blink :
    (runDetect cfgScenario (initBlinkState 0) traceScenario).blink_count = 0 ∧
    (runDetect cfgScenario (initBlinkState 0) traceScenario).blink_durations = [] ∧
    (runDetect cfgScenario (initBlinkState 0) traceScenario).counting_active = true := by
  decide

/-- C6, amended.  The 7-frame scenario sequence leaves a blink still in
progress (median-filter lag); once two further open-eye frames
(EAR 0.30) are appended at the same 30 fps cadence, exactly one valid
blink registers, with recorded duration exactly 4/30 s and one recorded
inter-blink interval. -/
theorem blink_scenario_extended_one_blink :
    (runDetect cfgScenario (initBlinkState 0) traceScenarioExt).blink_count = 1 ∧
    (runDetect cfgScenario (initBlinkState 0) traceScenarioExt).blink_durations = [4/30] ∧
    (runDetect cfgScenario (initBlinkState 0) traceScenarioExt).blink_intervals = [8/30] := by
  decide

/-- C7, counterexample.  The angle normalization applied to 300 returns
120, which lies outside `[-90, 90]` and is not a fixed point of
re-normalization, so the claim quantified over every angle fails. -/
theorem normalize_angle_300_counterexample :
    normalizeAngleToZero 300 = 120 ∧
    ¬ normalizeAngleToZero 300 ≤ 90 ∧
    normalizeAngleToZero (normalizeAngleToZero 300) ≠ normalizeAngleToZero 300 := by
  decide

/-- C7, amended.  On the interval `[-270, 270]`, which contains every
angle the classifier can feed it (raw angles are `acos` values in
`[0, 180]`, and so are their moving averages), the normalization is
idempotent: angles already in `[-90, 90]` pass through unchanged, every
result lies in `[-90, 90]` and re-normalizes to itself, and the two
documented cases hold: 170 normalizes to -10 and -170 to 10. -/
theorem normalize_angle_idempotent_on_domain :
    (∀ a : ℚ, -90 ≤ a → a ≤ 90 → normalizeAngleToZero a = a) ∧
    (∀ a : ℚ, -270 ≤ a → a ≤ 270 →
      (-90 ≤ normalizeAngleToZero a ∧ normalizeAngleToZero a ≤ 90) ∧
      normalizeAngleToZero (normalizeAngleToZero a) = normalizeAngleToZero a) ∧
    normalizeAngleToZero 170 = -10 ∧ normalizeAngleToZero (-170) = 10 := by
  have pass : ∀ a : ℚ, -90 ≤ a → a ≤ 90 → normalizeAngleToZero a = a := by
    intro a h1 h2
    simp [normalizeAngleToZero, h1, h2]
  have hrange : ∀ a : ℚ, -270 ≤ a → a ≤ 270 →
      -90 ≤ normalizeAngleToZero a ∧ normalizeAngleToZero a ≤ 90 := by
    intro a h1 h2
    unfold normalizeAngleToZero
    split_ifs with hin hgt
    · exact hin
    · constructor <;> linarith
    · rcases not_and_or.mp hin with h | h <;> push_neg at h
      · constructor <;> linarith
      · exact absurd h hgt
  refine ⟨pass, ?_, by decide, by decide⟩
  intro a h1 h2
  exact ⟨hrange a h1 h2, pass _ (hrange a h1 h2).1 (hrange a h1 h2).2⟩

/-- C7, witness for the amended theorem: normalizing 45 returns it
unchanged, and normalizing 260 lands in `[-90, 90]` and is a fixed point
of re-normalization. -/
theorem normalize_angle_idempotent_on_domain_witness :
    normalizeAngleToZero 45 = 45 ∧
    (-90 ≤ normalizeAngleToZero 260 ∧ normalizeAngleToZero 260 ≤ 90) ∧
    normalizeAngleToZero (normalizeAngleToZero 260) = normalizeAngleToZero 260 :=
  ⟨normalize_angle_idempotent_on_domain.1 45 (by norm_num) (by norm_num),
   (normalize_angle_idempotent_on_domain.2.1 260 (by norm_num) (by norm_num)).1,
   (normalize_angle_idempotent_on_domain.2.1 260 (by norm_num) (by norm_num)).2⟩

/-- C5.  The gaze-off tracker arms its start timestamp at 0 after two
frames of too-close distance (40 cm with a 50 cm minimum); a single frame
with the distance missing at `t = 1.05 s` — an absence that has lasted at
most 0.05 s — resets the timer to `None`, because the source compares
`now` against the episode start instead of the last time distance was
seen.  A frame with distance present and back in range (70 cm) also
resets the timer, as specified. -/
theorem gaze_off_missing_frame_resets_timer :
    runGazeOff cfgGaze Option.none
      [(0, some (some 40)), (1, some (some 40))] = some 0 ∧
    runGazeOff cfgGaze Option.none
      [(0, some (some 40)), (1, some (some 40)), (21/20, some Option.none)] =
      Option.none ∧
    (analyzeGazeOff cfgGaze (some 0) (1/2) (some (some 70))).1 = Option.none := by
  decide

/-- C9, counterexample.  On the five intervals `[1, 1, 1, 1, 3]` the
source value (squared) is `sampleVar/mean² = 0.8/1.96 = 20/49`, whereas
the population coefficient of variation (squared) is
`popVar/mean² = 0.64/1.96 = 16/49`; both are non-negative, so the
underlying values differ and the rhythm irregularity is not the
population CV. -/
theorem rhythm_irregularity_population_counterexample :
    rhythmIrregularitySq [1, 1, 1, 1, 3] = 20/49 ∧
    rhythmIrregularitySpecSq [1, 1, 1, 1, 3] = 16/49 ∧
    rhythmIrregularitySq [1, 1, 1, 1, 3] ≠ rhythmIrregularitySpecSq [1, 1, 1, 1, 3] := by
  decide

/-- C9, amended.  The rhythm irregularity is the coefficient of variation
computed with the SAMPLE standard deviation (Bessel's `n - 1`
denominator) and capped at 1, equivalently (at the squared level)
`min(1, n/(n-1) · popVar/mean²)`; it is 0 whenever fewer than 5 interval
samples exist or their mean is 0. -/
theorem rhythm_irregularity_sample_cv (l : List ℚ) :
    (l.length < 5 → rhythmIrregularitySq l = 0) ∧
    (meanQ l = 0 → rhythmIrregularitySq l = 0) ∧
    (5 ≤ l.length → meanQ l ≠ 0 →
      rhythmIrregularitySq l =
        min 1 ((l.length : ℚ) / ((l.length : ℚ) - 1) *
          (popVarQ l / (meanQ l) ^ 2))) := by
  refine ⟨?_, ?_, ?_⟩
  · intro h
    simp [rhythmIrregularitySq, h]
  · intro h
    unfold rhythmIrregularitySq
    split_ifs <;> simp_all
  · intro h5 hm
    have hlen : ¬ l.length < 5 := not_lt.mpr h5
    have hc : (5 : ℚ) ≤ (l.length : ℚ) := by exact_mod_cast h5
    have hn : (l.length : ℚ) ≠ 0 := by linarith
    have hn1 : (l.length : ℚ) - 1 ≠ 0 := by intro h; linarith
    simp only [rhythmIrregularitySq, if_neg hlen, if_neg hm]
    congr 1
    unfold sampleVarQ popVarQ
    field_simp
    ring

/-- C9, witness for the amended theorem, at the interval list
`[1, 1, 1, 1, 3]`. -/
theorem rhythm_irregularity_sample_cv_witness :
    rhythmIrregularitySq [1, 1, 1, 1, 3] =
      min 1 ((([1, 1, 1, 1, 3] : List ℚ).length : ℚ) /
        ((([1, 1, 1, 1, 3] : List ℚ).length : ℚ) - 1) *
        (popVarQ [1, 1, 1, 1, 3] / (meanQ [1, 1, 1, 1, 3]) ^ 2)) :=
  (rhythm_irregularity_sample_cv [1, 1, 1, 1, 3]).2.2 (by decide) (by decide)

/-- C4, counterexample.  A frame whose inter-eye pixel span (5 px) is
below the configured 10 px minimum still returns a non-null distance
when a previous frame filled the three-deep smoothing buffer: the
returned value is the buffered mean (63 cm from the prior frame), not
null. -/
theorem posture_distance_smoothed_counterexample :
    (5 : ℚ) < cfgPosture.min_eye_px ∧
    (analyzePosture cfgPosture
        (analyzePosture cfgPosture postureState0 5 5 5 60).1
        5 5 5 5).2.eye_distance_cm = some 63 := by
  decide

/-- C4, amended.  On a call whose inter-eye pixel span is below the
configured minimum, no new distance sample is produced (the smoothing
buffer is left unchanged), and the returned distance is null exactly
when that buffer is empty — in particular on any such call with no prior
valid-span frame — regardless of the focal length and inter-eye
reference distance. -/
theorem posture_distance_null_iff_buffer_empty (cfg : PostureCfg)
    (s : PostureState) (yaw pitch shoulder eye_px : ℚ)
    (h : eye_px < cfg.min_eye_px) :
    (analyzePosture cfg s yaw pitch shoulder eye_px).1.dist_filter = s.dist_filter ∧
    ((analyzePosture cfg s yaw pitch shoulder eye_px).2.eye_distance_cm = Option.none ↔
      s.dist_filter = []) := by
  unfold analyzePosture
  rw [if_neg (not_le.mpr h)]
  by_cases he : s.dist_filter = [] <;> simp [he]

/-- C4, witness for the amended theorem: with empty smoothing buffers, a
below-minimum span (5 px against a 10 px minimum) yields a null
distance. -/
theorem posture_distance_null_iff_buffer_empty_witness :
    (analyzePosture cfgPosture postureState0 5 5 5 5).2.eye_distance_cm =
      Option.none :=
  ((posture_distance_null_iff_buffer_empty cfgPosture postureState0 5 5 5 5
    (by decide)).2).mpr rfl

/-- C3, counterexample.  A call with the EAR absent returns a dictionary
carrying only the reason together with the keys merged in by `update`;
the filtered EAR, closed-frame count, current blink duration and
time-since-last-blink fields are missing, so the result is not fully
populated on this failure path. -/
theorem blink_result_failure_path_partial :
    allBlinkKeys (update cfgScenario (initBlinkState 0) 1 Val.none Option.none
      Option.none Option.none Option.none).2 = false ∧
    hasKey (update cfgScenario (initBlinkState 0) 1 Val.none Option.none
      Option.none Option.none Option.none).2 "reason" = true ∧
    hasKey (update cfgScenario (initBlinkState 0) 1 Val.none Option.none
      Option.none Option.none Option.none).2 "blink_detected" = true ∧
    hasKey (update cfgScenario (initBlinkState 0) 1 Val.none Option.none
      Option.none Option.none Option.none).2 "ear_filtered" = false ∧
    hasKey (update cfgScenario (initBlinkState 0) 1 Val.none Option.none
      Option.none Option.none Option.none).2 "closed_frames" = false ∧
    hasKey (update cfgScenario (initBlinkState 0) 1 Val.none Option.none
      Option.none Option.none Option.none).2 "blink_duration" = false ∧
    hasKey (update cfgScenario (initBlinkState 0) 1 Val.none Option.none
      Option.none Option.none Option.none).2 "time_since_last_blink" = false := by
  decide

/-- C1, counterexample.  With `consecutive_frames = 2`,
`blink_threshold = 0.2`, `min_blink_interval = 0.1 s` and
`max_blink_duration = 0.5 s`, the closed-eye run of `traceSlow` (filtered
EAR below threshold at `t = 0.6, 0.9, 1.2`, terminated by an open frame
at `t = 1.5`) has 3 ≥ 2 closed frames, lasts 0.6 s ≥ 0.1 s, and no prior
blink exists (gap 1.5 s ≥ 0.1 s), yet no blink is ever registered: the
run is aborted by the max-blink-duration guard before its terminating
open frame, so the claimed iff fails on this input. -/
theorem blink_long_run_counterexample :
    cfgSlow.consecutive_frames ≤ 3 ∧
    cfgSlow.min_blink_gap ≤ (12 : ℚ)/10 - 6/10 ∧
    cfgSlow.min_blink_gap ≤ (15 : ℚ)/10 - 0 ∧
    (runDetect cfgSlow (initBlinkState 0) traceSlow).blink_count = 0 ∧
    (runDetect cfgSlow (initBlinkState 0) traceSlow).blink_durations = [] := by
  decide

/-- Helper: a zero-signal call strictly inside the release window leaves
an armed fusion state unchanged. -/
theorem updateDrowsyState_zero_within (t0 t : ℚ)
    (h : t - t0 < DROWSY_RELEASE_SEC) :
    updateDrowsyState t 0 ⟨true, some t0⟩ = ⟨true, some t0⟩ := by
  have hnot : ¬ (t0 ≠ 0 ∧ DROWSY_RELEASE_SEC ≤ t - t0) := by
    rintro ⟨-, h2⟩
    linarith
  simp [updateDrowsyState, hnot]

/-- Helper: an armed drowsy state survives any run of zero-signal calls
whose timestamps all lie strictly within the release window. -/
theorem runDrowsy_zero_within (t0 : ℚ) (ts : List ℚ)
    (hts : ∀ t ∈ ts, t - t0 < DROWSY_RELEASE_SEC) :
    runDrowsy ⟨true, some t0⟩ (ts.map fun t => (t, 0)) = ⟨true, some t0⟩ := by
  induction ts with
  | nil => rfl
  | cons t ts ih =>
    have hstep := updateDrowsyState_zero_within t0 t (hts t (List.mem_cons_self t ts))
    simp only [List.map_cons, runDrowsy, List.foldl_cons] at *
    rw [hstep]
    exact ih (fun x hx => hts x (List.mem_cons_of_mem _ hx))

/-- C2.  Once the fused drowsy state is true, it remains true at every
call made less than 0.5 s after the first zero-signal call (the instant
all three component signals became false); and a call with all three
signals false never turns the drowsy state from false to true. -/
theorem drowsy_hysteresis_release :
    (∀ (s : FusionState) (t0 : ℚ) (ts : List ℚ),
      s.drowsy = true → s.drowsy_end_time = Option.none →
      (∀ t ∈ ts, t - t0 < DROWSY_RELEASE_SEC) →
      (runDrowsy (updateDrowsyState t0 0 s) (ts.map fun t => (t, 0))).drowsy = true) ∧
    (∀ (s : FusionState) (now : ℚ),
      s.drowsy = false → (updateDrowsyState now 0 s).drowsy = false) := by
  constructor
  · intro s t0 ts hd he hts
    obtain ⟨d, e⟩ := s
    simp only at hd he
    subst hd; subst he
    have h0 : updateDrowsyState t0 0 ⟨true, Option.none⟩ = ⟨true, some t0⟩ := by
      simp [updateDrowsyState]
      intro _
      norm_num [DROWSY_RELEASE_SEC]
    rw [h0, runDrowsy_zero_within t0 ts hts]
  · intro s now h
    obtain ⟨d, e⟩ := s
    simp only at h
    subst h
    cases e with
    | none => rfl
    | some t =>
      unfold updateDrowsyState
      norm_num
      split_ifs <;> rfl

/-- C2, witness: an armed drowsy state at `t₀ = 1` is still drowsy at a
zero-signal call at `t = 1.25`, and a non-drowsy state stays non-drowsy
on a zero-signal call. -/
theorem drowsy_hysteresis_release_witness :
    (runDrowsy (updateDrowsyState 1 0 ⟨true, Option.none⟩)
      ([5/4].map fun t => (t, 0))).drowsy = true ∧
    (updateDrowsyState 2 0 ⟨false, Option.none⟩).drowsy = false :=
  ⟨drowsy_hysteresis_release.1 ⟨true, Option.none⟩ 1 [5/4] rfl rfl (by decide),
   drowsy_hysteresis_release.2 ⟨false, Option.none⟩ 2 rfl⟩

/-- Helper: one `detectCore` transition never decreases the cumulative
blink count. -/
theorem detectCore_count_mono (cfg : BlinkCfg) (s : BlinkState) (now f e : ℚ) :
    s.blink_count ≤ (detectCore cfg s now f e).1.blink_count := by
  simp only [detectCore]
  split_ifs
  all_goals simp [resetState, Nat.le_succ]

/-- Helper: one `_detect` call never decreases the cumulative blink
count. -/
theorem detect_count_mono (cfg : BlinkCfg) (s : BlinkState) (now : ℚ)
    (ear contrast pitch yaw : Option ℚ) :
    s.blink_count ≤ (detect cfg s now ear contrast pitch yaw).1.blink_count := by
  cases ear with
  | none => simp [detect, resetState]
  | some e =>
    simp only [detect]
    split_ifs <;> first
      | simp [resetState]
      | exact detectCore_count_mono cfg
          { s with ear_buffer := pushCap 5 s.ear_buffer e,
                   current_ear := some (medianQ (pushCap 5 s.ear_buffer e)),
                   yaw_queue := (yawStep cfg s.yaw_queue yaw).1 }
          now (medianQ (pushCap 5 s.ear_buffer e)) e

/-- C8.  Within a session the cumulative blink count is monotonically
non-decreasing: no `update` call ever decreases it, and it returns to 0
through the explicit `reset_statistics` operation. -/
theorem blink_count_monotone :
    (∀ (cfg : BlinkCfg) (s : BlinkState) (now : ℚ) (frame : Val)
       (ear contrast pitch yaw : Option ℚ),
      s.blink_count ≤ (update cfg s now frame ear contrast pitch yaw).1.blink_count) ∧
    (∀ (s : BlinkState) (now : ℚ), (resetStatistics s now).blink_count = 0) := by
  constructor
  · intro cfg s now frame ear contrast pitch yaw
    simpa [update] using detect_count_mono cfg s now ear contrast pitch yaw
  · intro s now
    rfl

/-- Helper: merging the seven supplementary keys of `update` into a
step-4 result dictionary yields a dictionary carrying all ten
BlinkResult fields, whatever the stored values are. -/
theorem allBlinkKeys_mkInfo (s : BlinkState) (now f e : ℚ) (b : Bool) (r : Val)
    (v1 v2 v3 v4 v5 v6 v7 : Val) :
    allBlinkKeys (dictUpdate (mkInfo s now f e b r)
      [("frame", v1), ("blink_detected", v2), ("total_blinks", v3), ("ear", v4),
       ("blink_rate_per_minute", v5), ("avg_blink_duration", v6),
       ("avg_blink_interval", v7)]) = true := rfl

/-- Helper: a `_detect` call with the EAR present, at least three
buffered samples and both head guards passing reduces to the `detectCore`
state transition on the filtered EAR. -/
theorem detect_guards_pass (cfg : BlinkCfg) (s : BlinkState) (now e : ℚ)
    (contrast pitch yaw : Option ℚ)
    (hlen : ¬ (pushCap 5 s.ear_buffer e).length < 3)
    (hp : pitchExceeded cfg pitch = false)
    (hy : (yawStep cfg s.yaw_queue yaw).2 = false) :
    detect cfg s now (some e) contrast pitch yaw =
      detectCore cfg
        { s with ear_buffer := pushCap 5 s.ear_buffer e,
                 current_ear := some (medianQ (pushCap 5 s.ear_buffer e)),
                 yaw_queue := (yawStep cfg s.yaw_queue yaw).1 }
        now (medianQ (pushCap 5 s.ear_buffer e)) e := by
  simp only [detect, hlen, hp, hy]
  simp

/-- Helper: verdict of the `detectCore` transition at an open frame that
terminates a counted run: a blink registers exactly when the three
validity conditions hold, and when only the gap check fails the reason is
`too_soon_after_previous`. -/
theorem detectCore_eval (cfg : BlinkCfg) (s : BlinkState) (now f e : ℚ)
    (hopen : ¬ f < cfg.ear_th) (hcnt : s.counting_active = true) :
    ((detectCore cfg s now f e).2.1 = true ↔
      cfg.consecutive_frames ≤ s.closed_frames ∧
      cfg.min_blink_gap ≤ now - s.blink_start ∧
      cfg.min_blink_gap ≤ now - s.last_blink_ts) ∧
    (cfg.consecutive_frames ≤ s.closed_frames →
     cfg.min_blink_gap ≤ now - s.blink_start →
     now - s.last_blink_ts < cfg.min_blink_gap →
     (detectCore cfg s now f e).2.1 = false ∧
     lookupKey (detectCore cfg s now f e).2.2 "reason" =
       some (Val.str "too_soon_after_previous")) := by
  by_cases h1 : cfg.consecutive_frames ≤ s.closed_frames ∧ cfg.min_blink_gap ≤ now - s.blink_start
  · by_cases h2 : cfg.min_blink_gap ≤ now - s.last_blink_ts
    · constructor
      · simp [detectCore, hopen, hcnt, h1, h2, h1.1, h1.2]
      · intro _ _ h3
        exact absurd h2 (not_le.mpr h3)
    · constructor
      · simp [detectCore, hopen, hcnt, h1, h2]
      · intro _ _ _
        simp [detectCore, hopen, hcnt, h1, h2, mkInfo, lookupKey]
  · constructor
    · constructor
      · intro hfalse
        simp [detectCore, hopen, hcnt, h1] at hfalse
      · rintro ⟨hA, hB, -⟩
        exact absurd ⟨hA, hB⟩ h1
    · intro hA hB _
      exact absurd ⟨hA, hB⟩ h1

/-- C1, amended.  With the head-motion guards not triggered and the
de-bounce buffer holding at least three samples: at the open frame that
terminates a still-counted closed-eye run (i.e. one not already aborted
by the max-blink-duration or head-motion guards), a blink is registered
if and only if the accumulated closed-frame count is at least
`consecutive_frames`, the elapsed run duration is at least
`min_blink_interval`, and at least `min_blink_interval` has passed since
the previous registered blink; when only the gap check fails, the
returned reason is `too_soon_after_previous` and no blink registers.
Conversely, a call registers a blink only in exactly that situation, so
no other call of any sequence registers one. -/
theorem blink_run_verdict :
    (∀ (cfg : BlinkCfg) (s : BlinkState) (now e : ℚ)
       (contrast pitch yaw : Option ℚ),
      3 ≤ (pushCap 5 s.ear_buffer e).length →
      pitchExceeded cfg pitch = false →
      (yawStep cfg s.yaw_queue yaw).2 = false →
      ¬ medianQ (pushCap 5 s.ear_buffer e) < cfg.ear_th →
      s.counting_active = true →
      (((detect cfg s now (some e) contrast pitch yaw).2.1 = true ↔
        cfg.consecutive_frames ≤ s.closed_frames ∧
        cfg.min_blink_gap ≤ now - s.blink_start ∧
        cfg.min_blink_gap ≤ now - s.last_blink_ts) ∧
      (cfg.consecutive_frames ≤ s.closed_frames →
       cfg.min_blink_gap ≤ now - s.blink_start →
       now - s.last_blink_ts < cfg.min_blink_gap →
       (detect cfg s now (some e) contrast pitch yaw).2.1 = false ∧
       lookupKey (detect cfg s now (some e) contrast pitch yaw).2.2 "reason" =
         some (Val.str "too_soon_after_previous")))) ∧
    (∀ (cfg : BlinkCfg) (s : BlinkState) (now : ℚ)
       (ear contrast pitch yaw : Option ℚ),
      (detect cfg s now ear contrast pitch yaw).2.1 = true →
      s.counting_active = true ∧
      cfg.consecutive_frames ≤ s.closed_frames ∧
      cfg.min_blink_gap ≤ now - s.blink_start ∧
      cfg.min_blink_gap ≤ now - s.last_blink_ts) := by
  constructor
  · intro cfg s now e contrast pitch yaw hlen hp hy hopen hcnt
    rw [detect_guards_pass cfg s now e contrast pitch yaw (not_lt.mpr hlen) hp hy]
    exact detectCore_eval cfg _ now _ e hopen hcnt
  · intro cfg s now ear contrast pitch yaw h
    cases ear with
    | none => simp [detect] at h
    | some e =>
      by_cases hlen : (pushCap 5 s.ear_buffer e).length < 3
      · simp [detect, hlen] at h
      · cases hp : pitchExceeded cfg pitch with
        | true => simp [detect, hlen, hp] at h
        | false =>
          cases hy : (yawStep cfg s.yaw_queue yaw).2 with
          | true => simp [detect, hlen, hp, hy] at h
          | false =>
            rw [detect_guards_pass cfg s now e contrast pitch yaw hlen hp hy] at h
            by_cases hopen : medianQ (pushCap 5 s.ear_buffer e) < cfg.ear_th
            · simp only [detectCore, if_pos hopen] at h
              split_ifs at h
            · by_cases hcnt : s.counting_active = true
              · by_cases hc1 : cfg.consecutive_frames ≤ s.closed_frames ∧
                  cfg.min_blink_gap ≤ now - s.blink_start
                · by_cases hc2 : cfg.min_blink_gap ≤ now - s.last_blink_ts
                  · exact ⟨hcnt, hc1.1, hc1.2, hc2⟩
                  · simp [detectCore, hopen, hcnt, hc1, hc2] at h
                · simp [detectCore, hopen, hcnt, hc1] at h
              · have hcf : s.counting_active = false := by
                  cases hb : s.counting_active with
                  | true => exact absurd hb hcnt
                  | false => rfl
                simp [detectCore, hopen, hcf] at h

/-- C1, witness for the amended theorem: at an open frame terminating a
3-frame run of duration 1 s with no prior blink, the detector registers
a blink. -/
theorem blink_run_verdict_witness :
    (detect cfgScenario blinkStateMid 2 (some (3/10)) Option.none Option.none
      Option.none).2.1 = true :=
  (blink_run_verdict.1 cfgScenario blinkStateMid 2 (3/10) Option.none
    Option.none Option.none (by decide) rfl rfl (by decide) rfl).1.mpr
    (by decide)

/-- C10.  On the first valid blink of a session (last-blink timestamp
still at its initial value 0, empty interval history), the detector
appends an inter-blink interval equal to `now - 0`, i.e. the current
wall-clock timestamp itself, because `_last_blink_ts` is overwritten with
`now` before the `> 0` guard that was presumably meant to skip the first
blink. -/
theorem first_blink_records_interval (cfg : BlinkCfg) (s : BlinkState)
    (now e : ℚ) (contrast pitch yaw : Option ℚ)
    (hlen : 3 ≤ (pushCap 5 s.ear_buffer e).length)
    (hp : pitchExceeded cfg pitch = false)
    (hy : (yawStep cfg s.yaw_queue yaw).2 = false)
    (hopen : ¬ medianQ (pushCap 5 s.ear_buffer e) < cfg.ear_th)
    (hcnt : s.counting_active = true)
    (hlast : s.last_blink_ts = 0)
    (hints : s.blink_intervals = [])
    (hnow : 0 < now)
    (hcf : cfg.consecutive_frames ≤ s.closed_frames)
    (hdur : cfg.min_blink_gap ≤ now - s.blink_start)
    (hgap : cfg.min_blink_gap ≤ now - s.last_blink_ts) :
    (detect cfg s now (some e) contrast pitch yaw).2.1 = true ∧
    (detect cfg s now (some e) contrast pitch yaw).1.blink_intervals = [now] := by
  rw [detect_guards_pass cfg s now e contrast pitch yaw (not_lt.mpr hlen) hp hy]
  have hone : ∀ x : ℚ, pushCap 100 [] x = [x] := fun x => rfl
  have hgap2 : cfg.min_blink_gap ≤ now := by rwa [hlast, sub_zero] at hgap
  constructor <;>
    simp [detectCore, hopen, hcnt, hcf, hdur, hgap, hgap2, hnow, hlast, hints,
      hone, sub_zero]

/-- C10, witness: concrete first valid blink at `now = 2` records the
interval 2 (= 2 - 0). -/
theorem first_blink_records_interval_witness :
    (detect cfgScenario blinkStateMid 2 (some (3/10)) Option.none Option.none
      Option.none).2.1 = true ∧
    (detect cfgScenario blinkStateMid 2 (some (3/10)) Option.none Option.none
      Option.none).1.blink_intervals = [2] :=
  first_blink_records_interval cfgScenario blinkStateMid 2 (3/10) Option.none
    Option.none Option.none (by decide) rfl rfl (by decide) rfl rfl rfl
    (by decide) (by decide) (by decide) (by decide)

/-- C3, amended.  On every call that reaches the state-transition stage
(EAR present, at least three buffered samples, both head guards passing,
and the call not aborted by the max-blink-duration guard), the `update`
result carries all ten BlinkResult fields.  On the early failure paths —
absent EAR, fewer than three samples, a head guard triggered, or the
max-duration abort — the result carries the reason together with the
keys merged in by `update` (blink_detected, cumulative count, raw EAR,
rate and the two averages, frame), but not filtered_ear,
closed_frame_count, current_blink_duration or time_since_last_blink. -/
theorem blink_result_full_fields (cfg : BlinkCfg) (s : BlinkState) (now : ℚ)
    (frame : Val) (e : ℚ) (contrast pitch yaw : Option ℚ)
    (hlen : 3 ≤ (pushCap 5 s.ear_buffer e).length)
    (hp : pitchExceeded cfg pitch = false)
    (hy : (yawStep cfg s.yaw_queue yaw).2 = false)
    (hnl : ¬ (medianQ (pushCap 5 s.ear_buffer e) < cfg.ear_th ∧
              s.counting_active = true ∧
              cfg.max_blink_dur < now - s.blink_start)) :
    allBlinkKeys (update cfg s now frame (some e) contrast pitch yaw).2 = true := by
  unfold update
  rw [detect_guards_pass cfg s now e contrast pitch yaw (not_lt.mpr hlen) hp hy]
  by_cases hclosed : medianQ (pushCap 5 s.ear_buffer e) < cfg.ear_th
  · by_cases hcnt : s.counting_active = true
    · have hdur : ¬ cfg.max_blink_dur < now - s.blink_start :=
        fun hd => hnl ⟨hclosed, hcnt, hd⟩
      simp only [detectCore, hclosed, hcnt, hdur, if_true, if_false, if_pos, if_neg,
        not_false_eq_true, ite_true, ite_false]
      simp [hclosed, hcnt, hdur, allBlinkKeys_mkInfo]
    · have hcf : s.counting_active = false := by
        cases hb : s.counting_active with
        | true => exact absurd hb hcnt
        | false => rfl
      simp [detectCore, hclosed, hcf, allBlinkKeys_mkInfo]
  · by_cases hcnt : s.counting_active = true
    · by_cases hc1 : cfg.consecutive_frames ≤ s.closed_frames ∧
        cfg.min_blink_gap ≤ now - s.blink_start
      · by_cases hc2 : cfg.min_blink_gap ≤ now - s.last_blink_ts
        · simp [detectCore, hclosed, hcnt, hc1, hc2, allBlinkKeys_mkInfo]
        · simp [detectCore, hclosed, hcnt, hc1, hc2, allBlinkKeys_mkInfo]
      · simp [detectCore, hclosed, hcnt, hc1, allBlinkKeys_mkInfo]
    · have hcf : s.counting_active = false := by
        cases hb : s.counting_active with
        | true => exact absurd hb hcnt
        | false => rfl
      simp [detectCore, hclosed, hcf, allBlinkKeys_mkInfo]

/-- C3, witness for the amended theorem: a concrete open frame ending a
counted run yields a fully populated result dictionary. -/
theorem blink_result_full_fields_witness :
    allBlinkKeys (update cfgScenario blinkStateMid 2 Val.none (some (3/10))
      Option.none Option.none Option.none).2 = true :=
  blink_result_full_fields cfgScenario blinkStateMid 2 Val.none (3/10)
    Option.none Option.none Option.none (by decide) rfl rfl (by decide)

end AEyePro
